import Mathlib

/-!
Shallow embedding of the deterministic financial projection engine in
`src/domain/projections.py` (dataclasses `SubcategoryBudget`, `CategoryBudget`,
`OneTimeCost`, `FXMapping`, `ProjectionAssumptions`, `MonthlyProjection`,
`YearlyProjection`, the free function `aggregate_to_yearly`, and the class
`ProjectionEngine` with `__init__`, `project_month`, `project_period`).

Modelling conventions:
- Python `Decimal` values are embedded as `ℚ`.  All monetary arithmetic in the
  source (`+`, `-`, `*`, `max`, `min`, comparisons) is exact on `Decimal`
  operands of the sizes that occur here, so `ℚ` is a faithful model of it.
- The source computes compounding factors by converting the rate to a double
  precision float, exponentiating, and converting the result back through
  `Decimal(str(...))`.  That two-step float round trip is embedded as an
  abstract parameter `f : ℚ → ℚ → ℚ` (base, exponent ↦ factor), so every
  theorem holds for the actual float behaviour: the factor is produced by one
  application of `f` and is then multiplied into the exact principal.
- Python dicts are embedded as insertion-ordered association lists
  (`List (String × ℚ)`); `dict.get(k, d)` is `(l.lookup k).getD d`.
- Python truthiness of `Optional`/container values is modelled explicitly
  (`pyOr` for `x or y` on optional Decimals, emptiness tests for dicts/lists,
  the non-empty-string test for the buffer bucket name).
- `datetime` values are embedded by their year and month only, because the
  engine formats periods with `strftime("%Y-%m")`, which discards every finer
  component; the `datetime.now()` fallback is an explicit `now : Date`
  parameter.
-/

namespace Ledgera

/-- Association-list embedding of a Python `Dict[str, Decimal]`. -/
abbrev Dict := List (String × ℚ)

/-- Calendar date truncated to what `strftime("%Y-%m")` can observe. -/
structure Date where
  year : ℕ
  month : ℕ
deriving DecidableEq

/-- Budget allocation for a subcategory within a category (`SubcategoryBudget`). -/
structure SubcategoryBudget where
  subcategory_id : String
  monthly_amount : ℚ
  inflation_override : Option ℚ := none
deriving DecidableEq

/-- Budget allocation for a category (`CategoryBudget`). -/
structure CategoryBudget where
  category_id : String
  monthly_amount : ℚ
  inflation_override : Option ℚ := none
  subcategory_budgets : List SubcategoryBudget := []
deriving DecidableEq

/-- One-time expense in a specific month (`OneTimeCost`).  `month_index` is a
Python `int`, hence `ℤ`. -/
structure OneTimeCost where
  name : String
  amount : ℚ
  month_index : ℤ
  notes : Option String := none
  category_id : Option String := none
deriving DecidableEq

/-- Foreign exchange mapping for multi-currency display (`FXMapping`). -/
structure FXMapping where
  base_currency : String
  display_currencies : List String := []
  rates : Dict := []
deriving DecidableEq

/-- Projection model inputs (`ProjectionAssumptions`).  The two dict fields
default to `None` in the source and are normalised to `{}` by
`ProjectionEngine.__init__`; they are `Option Dict` here for the same reason.
The source defaults `tax_rate = Decimal(0.20)` and
`expense_inflation_rate = Decimal(0.03)` from float literals, so the defaults
here are the exact binary values of those floats. -/
structure ProjectionAssumptions where
  base_currency : String := "SGD"
  start_date : Option Date := none
  monthly_salary : ℚ := 0
  annual_bonus : ℚ := 0
  other_income : ℚ := 0
  tax_rate : ℚ := 3602879701896397 / 18014398509481984
  category_budgets : List CategoryBudget := []
  expense_inflation_rate : ℚ := 1080863910568919 / 36028797018963968
  monthly_expenses : Option ℚ := none
  one_time_costs : List OneTimeCost := []
  allocation_weights : Option Dict := none
  bucket_returns : Option Dict := none
  minimum_cash_buffer_months : ℤ := 6
  cash_buffer_bucket_name : Option String := some "cash"
  enforce_cash_buffer : Bool := false
  fx_mapping : Option FXMapping := none
deriving DecidableEq

/-- Entry of `one_time_costs_detail` (the per-item dict the source builds:
name, amount, notes, category_id). -/
structure OneTimeCostDetail where
  name : String
  amount : ℚ
  notes : Option String
  category_id : Option String
deriving DecidableEq

/-- Single month projection result (`MonthlyProjection`). -/
structure MonthlyProjection where
  period : String
  gross_income : ℚ
  taxes : ℚ
  net_income : ℚ
  expenses : ℚ
  expense_breakdown : Dict
  one_time_costs : ℚ
  one_time_costs_detail : List OneTimeCostDetail
  savings : ℚ
  bucket_allocations : Dict
  bucket_balances : Dict
  savings_rate : ℚ
  net_income_fx : Dict
  total_wealth_fx : Dict
deriving DecidableEq

/-- Yearly aggregation of monthly projections (`YearlyProjection`). -/
structure YearlyProjection where
  year : ℤ
  gross_income : ℚ
  taxes : ℚ
  net_income : ℚ
  expenses : ℚ
  one_time_costs : ℚ
  savings : ℚ
  avg_savings_rate : ℚ
  bucket_balances_start : Dict
  bucket_balances_end : Dict
  bucket_contributions : Dict
  total_wealth_end : ℚ
deriving DecidableEq

/-- Python `x or y` on an optional Decimal: `None` and `Decimal(0)` are both
falsy, any non-zero Decimal is truthy.  This is exactly the construct the
source uses to resolve inflation overrides (lines 259 and 266). -/
def pyOr (x : Option ℚ) (y : ℚ) : ℚ :=
  match x with
  | none => y
  | some v => if v = 0 then y else v

/-- Python truthiness of an `Optional[str]`: `None` and `""` are falsy. -/
def strOptTruthy : Option String → Bool
  | none => false
  | some s => s != ""

/-- Normalised allocation weights (`__init__` replaces `None` with `{}`). -/
def weights (a : ProjectionAssumptions) : Dict :=
  a.allocation_weights.getD []

/-- Normalised bucket returns (`__init__` replaces `None` with `{}`). -/
def returnsOf (a : ProjectionAssumptions) : Dict :=
  a.bucket_returns.getD []

/-- The `__init__` normalisation step: `None` dict fields become `{}`. -/
def normalizeAssumptions (a : ProjectionAssumptions) : ProjectionAssumptions :=
  { a with allocation_weights := some (weights a), bucket_returns := some (returnsOf a) }

/-- `ProjectionEngine.__init__`: normalise the two dict fields, then reject
unless non-empty allocation weights sum to 1 within an absolute tolerance of
`Decimal("0.001")` (`abs(total - 1) > tolerance` raises `ValueError`). -/
def engineInit (a : ProjectionAssumptions) : Except String ProjectionAssumptions :=
  let a2 := normalizeAssumptions a
  if (weights a2).isEmpty then Except.ok a2
  else
    let total_weight := ((weights a2).map Prod.snd).sum
    if 1 / 1000 < |total_weight - 1| then
      Except.error "Allocation weights must sum to 1.0"
    else Except.ok a2

/-- Compounding factor `Decimal(str((1 + rate_float) ** (month_index / 12)))`
of the source, with the float round trip abstracted as `f`.  This totalises
one error path of the source: for a base below 0 (a rate below -100%) and a
non-integral exponent, Python's float power returns a complex number and the
`Decimal(str(...))` conversion raises; that path is modelled separately by
`powRaises`/`computeExpensesRaises` below and settles the failure part of C5. -/
def inflFactor (f : ℚ → ℚ → ℚ) (rate : ℚ) (month_index : ℕ) : ℚ :=
  f (1 + rate) ((month_index : ℚ) / 12)

/-- One subcategory's breakdown entry: composite key
`"category:subcategory"`, amount inflated at `sub override or catRate`. -/
def subcategoryEntry (f : ℚ → ℚ → ℚ) (catRate : ℚ) (month_index : ℕ)
    (catId : String) (sb : SubcategoryBudget) : String × ℚ :=
  (catId ++ ":" ++ sb.subcategory_id,
   sb.monthly_amount * inflFactor f (pyOr sb.inflation_override catRate) month_index)

/-- Breakdown entries and total for one `CategoryBudget` (source lines
257-283): the category rate is `inflation_override or global`; a category with
subcategories reports each subcategory under a composite key followed by the
category rollup; a flat category reports its own inflated amount. -/
def categoryEntries (f : ℚ → ℚ → ℚ) (globalRate : ℚ) (month_index : ℕ)
    (cb : CategoryBudget) : Dict × ℚ :=
  let catRate := pyOr cb.inflation_override globalRate
  match cb.subcategory_budgets with
  | [] =>
      let e := cb.monthly_amount * inflFactor f catRate month_index
      ([(cb.category_id, e)], e)
  | _ =>
      let entries :=
        cb.subcategory_budgets.map (subcategoryEntry f catRate month_index cb.category_id)
      let total := (entries.map Prod.snd).sum
      (entries ++ [(cb.category_id, total)], total)

/-- Expense breakdown and total for a month: category budgets if non-empty,
else the legacy flat `monthly_expenses` inflated at the global rate, else 0. -/
def computeExpenses (f : ℚ → ℚ → ℚ) (a : ProjectionAssumptions)
    (month_index : ℕ) : Dict × ℚ :=
  if a.category_budgets.isEmpty then
    match a.monthly_expenses with
    | some me => ([], me * inflFactor f a.expense_inflation_rate month_index)
    | none => ([], 0)
  else
    a.category_budgets.foldl
      (fun acc cb =>
        (acc.1 ++ (categoryEntries f a.expense_inflation_rate month_index cb).1,
         acc.2 + (categoryEntries f a.expense_inflation_rate month_index cb).2))
      ([], 0)

/-- One-time costs whose `month_index` equals the current month. -/
def oneTimeMatches (a : ProjectionAssumptions) (month_index : ℕ) : List OneTimeCost :=
  a.one_time_costs.filter (fun c => c.month_index == (month_index : ℤ))

/-- Total of this month's one-time costs. -/
def oneTimeTotal (a : ProjectionAssumptions) (month_index : ℕ) : ℚ :=
  ((oneTimeMatches a month_index).map OneTimeCost.amount).sum

/-- Detail list of this month's one-time costs. -/
def oneTimeDetail (a : ProjectionAssumptions) (month_index : ℕ) : List OneTimeCostDetail :=
  (oneTimeMatches a month_index).map (fun c => ⟨c.name, c.amount, c.notes, c.category_id⟩)

/-- Gross monthly income: salary + bonus/12 + other. -/
def grossIncome (a : ProjectionAssumptions) : ℚ :=
  a.monthly_salary + a.annual_bonus / 12 + a.other_income

/-- Taxes at the flat rate. -/
def taxesOf (a : ProjectionAssumptions) : ℚ :=
  grossIncome a * a.tax_rate

/-- Net (post-tax) income. -/
def netIncome (a : ProjectionAssumptions) : ℚ :=
  grossIncome a - taxesOf a

/-- Total expenses of the month. -/
def monthExpenses (f : ℚ → ℚ → ℚ) (a : ProjectionAssumptions) (month_index : ℕ) : ℚ :=
  (computeExpenses f a month_index).2

/-- Savings: `max(0, net - expenses - one_time_total)` (source line 307). -/
def monthSavings (f : ℚ → ℚ → ℚ) (a : ProjectionAssumptions) (month_index : ℕ) : ℚ :=
  max 0 (netIncome a - monthExpenses f a month_index - oneTimeTotal a month_index)

/-- Whether the cash-buffer branch is taken: `enforce_cash_buffer` and a
truthy `cash_buffer_bucket_name` (source line 312). -/
def bufferModeActive (a : ProjectionAssumptions) : Bool :=
  a.enforce_cash_buffer && strOptTruthy a.cash_buffer_bucket_name

/-- The designated buffer bucket name. -/
def bufferName (a : ProjectionAssumptions) : String :=
  a.cash_buffer_bucket_name.getD ""

/-- Savings allocation across buckets (source lines 310-337): with the buffer
rule active and the buffer below `expenses * minimum_cash_buffer_months`, give
`min(savings, target - current)` to the buffer and distribute the remainder by
weight (the buffer also gets its weighted share); otherwise allocate
`savings * weight` to every bucket. -/
def allocateBuckets (a : ProjectionAssumptions) (previous_balances : Dict)
    (expenses savings : ℚ) : Dict :=
  if bufferModeActive a then
    let cash_bucket := bufferName a
    let current_cash := (previous_balances.lookup cash_bucket).getD 0
    let target_cash := expenses * (a.minimum_cash_buffer_months : ℚ)
    if current_cash < target_cash then
      let cash_needed := target_cash - current_cash
      let to_cash := min savings cash_needed
      let remainder := savings - to_cash
      (weights a).map (fun p =>
        if p.1 == cash_bucket then (p.1, to_cash + remainder * p.2)
        else (p.1, remainder * p.2))
    else
      (weights a).map (fun p => (p.1, savings * p.2))
  else
    (weights a).map (fun p => (p.1, savings * p.2))

/-- Roll-forward of bucket balances (source lines 339-349):
`new_balance = previous_balance * factor(1 + annual_return) + allocation`,
with annual return 0 for buckets absent from `bucket_returns`.  The growth
factor shares the float-pow error path of `inflFactor` (a bucket return below
-100% makes line 346 raise); that path is modelled by `rollForwardRaises`. -/
def rollForward (f : ℚ → ℚ → ℚ) (a : ProjectionAssumptions)
    (previous_balances allocations : Dict) : Dict :=
  allocations.map (fun p =>
    let previous_balance := (previous_balances.lookup p.1).getD 0
    let annual_return := ((returnsOf a).lookup p.1).getD 0
    let monthly_return_factor := f (1 + annual_return) (1 / 12)
    (p.1, previous_balance * monthly_return_factor + p.2))

/-- Zero balances for every allocation-weight bucket (the default used when no
prior balances are supplied). -/
def zeroBalances (a : ProjectionAssumptions) : Dict :=
  (weights a).map (fun p => (p.1, (0 : ℚ)))

/-- Effective prior balances: the supplied map, or zeros per weight bucket. -/
def previousOrDefault (a : ProjectionAssumptions) (previous_balances : Option Dict) : Dict :=
  previous_balances.getD (zeroBalances a)

/-- Zero-pad a natural number to two digits (strftime "%m"). -/
def pad2 (n : ℕ) : String :=
  if n < 10 then "0" ++ toString n else toString n

/-- Zero-pad a natural number to four digits (strftime "%Y" for the years a
Python `datetime` can hold). -/
def pad4 (n : ℕ) : String :=
  if n < 10 then "000" ++ toString n
  else if n < 100 then "00" ++ toString n
  else if n < 1000 then "0" ++ toString n
  else toString n

/-- `relativedelta(months=k)` on the year-month part of a date.  Total over
unbounded years, whereas `datetime` stops at year 9999: the source raises
`OverflowError` at line 356 once the shifted date passes that bound — an
error path modelled separately by `periodRaises`. -/
def addMonths (d : Date) (k : ℕ) : Date :=
  let t := d.month - 1 + k
  ⟨d.year + t / 12, t % 12 + 1⟩

/-- `strftime("%Y-%m")`. -/
def formatPeriod (d : Date) : String :=
  pad4 d.year ++ "-" ++ pad2 d.month

/-- Period label (source lines 354-357): `start_date` (or the first day of the
current month, whose year-month part is `now`) plus `month_index` calendar
months, formatted `YYYY-MM`. -/
def periodLabel (now : Date) (a : ProjectionAssumptions) (month_index : ℕ) : String :=
  formatPeriod (addMonths (a.start_date.getD now) month_index)

/-- FX display conversion (source lines 359-373): per display currency, net
income and total end-of-month wealth times the rate for `"<base><ccy>"`,
defaulting to 1 for a missing pair. -/
def fxConvert (a : ProjectionAssumptions) (net_income : ℚ)
    (bucket_balances : Dict) : Dict × Dict :=
  match a.fx_mapping with
  | none => ([], [])
  | some fx =>
      (fx.display_currencies.map (fun c =>
         (c, net_income * ((fx.rates.lookup (fx.base_currency ++ c)).getD 1))),
       fx.display_currencies.map (fun c =>
         (c, (bucket_balances.map Prod.snd).sum *
               ((fx.rates.lookup (fx.base_currency ++ c)).getD 1))))

/-- `ProjectionEngine.project_month`, assembled from the helpers above exactly
as the source method computes it.  `f` is the abstract float-pow round trip
and `now` the year-month of the `datetime.now()` fallback. -/
def project_month (f : ℚ → ℚ → ℚ) (now : Date) (a : ProjectionAssumptions)
    (month_index : ℕ) (previous_balances : Option Dict) : MonthlyProjection :=
  let previous := previousOrDefault a previous_balances
  let eb := computeExpenses f a month_index
  let net_income := netIncome a
  let savings := monthSavings f a month_index
  let bucket_allocations := allocateBuckets a previous eb.2 savings
  let bucket_balances := rollForward f a previous bucket_allocations
  let fxp := fxConvert a net_income bucket_balances
  { period := periodLabel now a month_index
    gross_income := grossIncome a
    taxes := taxesOf a
    net_income := net_income
    expenses := eb.2
    expense_breakdown := eb.1
    one_time_costs := oneTimeTotal a month_index
    one_time_costs_detail := oneTimeDetail a month_index
    savings := savings
    bucket_allocations := bucket_allocations
    bucket_balances := bucket_balances
    savings_rate := if 0 < net_income then savings / net_income else 0
    net_income_fx := fxp.1
    total_wealth_fx := fxp.2 }

/-- The loop body of `project_period`: months `start, start+1, ...` for `n`
steps, threading each month's `bucket_balances` into the next call. -/
def runMonths (f : ℚ → ℚ → ℚ) (now : Date) (a : ProjectionAssumptions) :
    ℕ → ℕ → Dict → List MonthlyProjection
  | _, 0, _ => []
  | month_idx, Nat.succ n, current_balances =>
      let p := project_month f now a month_idx (some current_balances)
      p :: runMonths f now a (month_idx + 1) n p.bucket_balances

/-- `ProjectionEngine.project_period` (source lines 392-415):
`current_balances = initial_balances or {k: 0 for k in allocation_weights}`
(so a missing or empty map falls back to zeros per weight bucket), then the
sequential month loop. -/
def project_period (f : ℚ → ℚ → ℚ) (now : Date) (a : ProjectionAssumptions)
    (months : ℕ) (initial_balances : Option Dict) : List MonthlyProjection :=
  let current_balances :=
    match initial_balances with
    | none => zeroBalances a
    | some d => if d.isEmpty then zeroBalances a else d
  runMonths f now a 0 months current_balances

/-- Year embedded in a period label: `int(p.period[:4])` of the source, for
the all-digit labels the engine emits. -/
def periodYear (s : String) : ℤ :=
  (s.data.take 4).foldl (fun acc c => acc * 10 + ((c.toNat : ℤ) - 48)) 0

/-- Insert into a sorted list of years (ascending). -/
def insertSorted (y : ℤ) : List ℤ → List ℤ
  | [] => [y]
  | x :: xs => if y ≤ x then y :: x :: xs else x :: insertSorted y xs

/-- Ascending sort of a list of years (`sorted(years_data.keys())`). -/
def sortYears (l : List ℤ) : List ℤ :=
  l.foldr insertSorted []

/-- Distinct years in first-appearance order (`years_data` keys). -/
def distinctYears (projections : List MonthlyProjection) : List ℤ :=
  projections.foldl
    (fun acc p =>
      if periodYear p.period ∈ acc then acc else acc ++ [periodYear p.period])
    []

/-- Dict assignment `d[k] = v`: overwrite in place, else append. -/
def dictSet (d : Dict) (k : String) (v : ℚ) : Dict :=
  if (d.lookup k).isSome then
    d.map (fun p => if p.1 == k then (p.1, v) else p)
  else d ++ [(k, v)]

/-- `bucket_contributions[b] = bucket_contributions.get(b, 0) + allocation`. -/
def addContribution (acc : Dict) (p : String × ℚ) : Dict :=
  dictSet acc p.1 ((acc.lookup p.1).getD 0 + p.2)

/-- Per-bucket sum of allocations over a year's months. -/
def sumContributions (months : List MonthlyProjection) : Dict :=
  months.foldl (fun acc m => m.bucket_allocations.foldl addContribution acc) []

/-- Default used for the unreachable empty-list head/last accesses (the
grouping guarantees every year's month list is non-empty). -/
def mdefault : MonthlyProjection :=
  ⟨"", 0, 0, 0, 0, [], 0, [], 0, [], [], 0, [], []⟩

/-- Aggregation of one calendar year's months (loop body of
`aggregate_to_yearly`, source lines 143-198): sums of the flow fields, simple
mean of the savings rates, end balances from the last month, start balances
reconstructed as `max(0, first_balance - first_allocation)` per bucket (0 when
the first month's allocations map is empty), per-bucket contribution sums, and
total end wealth. -/
def aggregateYear (year : ℤ) (months : List MonthlyProjection) : YearlyProjection :=
  let first_month := months.headD mdefault
  let last_month := months.getLastD mdefault
  let bucket_balances_end := last_month.bucket_balances
  ⟨year,
   (months.map MonthlyProjection.gross_income).sum,
   (months.map MonthlyProjection.taxes).sum,
   (months.map MonthlyProjection.net_income).sum,
   (months.map MonthlyProjection.expenses).sum,
   (months.map MonthlyProjection.one_time_costs).sum,
   (months.map MonthlyProjection.savings).sum,
   (if months.isEmpty then 0
    else (months.map MonthlyProjection.savings_rate).sum / (months.length : ℚ)),
   bucket_balances_end.map (fun p =>
     if first_month.bucket_allocations.isEmpty then (p.1, (0 : ℚ))
     else
       (p.1, max 0 ((first_month.bucket_balances.lookup p.1).getD 0 -
                    (first_month.bucket_allocations.lookup p.1).getD 0))),
   bucket_balances_end,
   sumContributions months,
   (bucket_balances_end.map Prod.snd).sum⟩

/-- Months of one calendar year in a series (the grouping step of
`aggregate_to_yearly`, in encounter order). -/
def monthsOfYear (projections : List MonthlyProjection) (y : ℤ) : List MonthlyProjection :=
  projections.filter (fun p => periodYear p.period == y)

/-- `aggregate_to_yearly` (source lines 120-200): empty input gives `[]`;
otherwise group by the year embedded in the period label and aggregate each
year in ascending year order. -/
def aggregate_to_yearly (projections : List MonthlyProjection) : List YearlyProjection :=
  if projections.isEmpty then []
  else
    (sortYears (distinctYears projections)).map (fun y =>
      aggregateYear y (monthsOfYear projections y))

/-- Spec-side notion for the amended C1: an override counts as specified only
when it is present and non-zero (the code conflates a zero override with an
absent one via Python truthiness). -/
def specifiedNonzero : Option ℚ → Bool
  | none => false
  | some r => r != 0

/-- Spec-side explicit two-tier lookup: category override when specified and
non-zero, else the global rate. -/
def twoTierRate (globalRate : ℚ) (catOv : Option ℚ) : ℚ :=
  if specifiedNonzero catOv then catOv.getD 0 else globalRate

/-- Spec-side explicit three-tier lookup: subcategory override, else category
override, else global, where an override counts only when non-zero. -/
def threeTierRate (globalRate : ℚ) (catOv subOv : Option ℚ) : ℚ :=
  if specifiedNonzero subOv then subOv.getD 0 else twoTierRate globalRate catOv

/-- Spec-side breakdown entries of one category, written from the (amended)
spec wording: each leaf is inflated at its tier-resolved effective rate; a
category with subcategories reports the composite entries followed by their
sum under the category key. -/
def specEntriesFor (f : ℚ → ℚ → ℚ) (globalRate : ℚ) (month_index : ℕ)
    (cb : CategoryBudget) : Dict :=
  match cb.subcategory_budgets with
  | [] =>
      [(cb.category_id,
        cb.monthly_amount * inflFactor f (twoTierRate globalRate cb.inflation_override) month_index)]
  | _ =>
      let entries := cb.subcategory_budgets.map (fun sb =>
        (cb.category_id ++ ":" ++ sb.subcategory_id,
         sb.monthly_amount *
           inflFactor f (threeTierRate globalRate cb.inflation_override sb.inflation_override)
             month_index))
      entries ++ [(cb.category_id, (entries.map Prod.snd).sum)]

/-- Spec-side first-month balance map of C7: the supplied initial balances
with every allocation-weight bucket not explicitly supplied defaulting to 0. -/
def specInitialBalances (a : ProjectionAssumptions) (initial_balances : Option Dict) : Dict :=
  let d := initial_balances.getD []
  d ++ ((weights a).filter (fun p => (d.lookup p.1).isNone)).map (fun p => (p.1, (0 : ℚ)))

/-- Spec-side month sequence of C7: `m_0 = project_month(start, b)` and
`m_{k+1} = project_month(start+k+1, m_k.bucket_balances)`, for `n` months. -/
def specSequence (f : ℚ → ℚ → ℚ) (now : Date) (a : ProjectionAssumptions) :
    Dict → ℕ → ℕ → List MonthlyProjection
  | _, _, 0 => []
  | b, start, Nat.succ n =>
      let m := project_month f now a start (some b)
      m :: specSequence f now a m.bucket_balances (start + 1) n

/-- Concrete assumptions used by several witnesses: salary 1000, no tax, flat
expenses 100, cash-buffer rule active over buckets cash and invest. -/
def wAssum : ProjectionAssumptions :=
  { monthly_salary := 1000
    tax_rate := 0
    expense_inflation_rate := 0
    monthly_expenses := some 100
    allocation_weights := some [("cash", 1/2), ("invest", 1/2)]
    bucket_returns := some [("invest", 2/10)]
    minimum_cash_buffer_months := 6
    cash_buffer_bucket_name := some "cash"
    enforce_cash_buffer := true }

/-- Concrete assumptions whose buffer bucket is not an allocation-weight key:
the weights validate (they sum to 1) but the buffer priority amount can never
be credited. -/
def cAssum2 : ProjectionAssumptions :=
  { monthly_salary := 1000
    tax_rate := 0
    expense_inflation_rate := 0
    monthly_expenses := some 100
    allocation_weights := some [("invest", 1)]
    bucket_returns := some []
    minimum_cash_buffer_months := 6
    cash_buffer_bucket_name := some "cash"
    enforce_cash_buffer := true }

/-- Concrete assumptions with weights summing to 0.8 (the spec example that
must be rejected at construction). -/
def wBad : ProjectionAssumptions :=
  { allocation_weights := some [("cash", 3/10), ("invest", 5/10)] }

/-- Concrete assumptions with weights summing to exactly 1 (the spec example
that must construct successfully). -/
def wGood : ProjectionAssumptions :=
  { allocation_weights :=
      some [("a", 33333/100000), ("b", 33333/100000), ("c", 33334/100000)] }

/-- Concrete unbuffered assumptions with a single invest bucket, used to
evaluate the growth formula. -/
def wAssum6 : ProjectionAssumptions :=
  { monthly_salary := 1000
    tax_rate := 0
    expense_inflation_rate := 0
    allocation_weights := some [("invest", 1)]
    bucket_returns := some [("invest", 2/10)]
    enforce_cash_buffer := false }

/-- Concrete assumptions with a single category whose inflation override is
the (specified) value 0, against a 3 percent global rate. -/
def c1Assum : ProjectionAssumptions :=
  { category_budgets := [⟨"food", 100, some 0, []⟩]
    expense_inflation_rate := 3/100 }

/-- Concrete all-zero month used to evaluate the yearly aggregation. -/
def c8Month : MonthlyProjection :=
  ⟨"2026-01", 0, 0, 0, 0, [], 0, [], 0, [], [], 0, [], []⟩

/-- The yearly aggregate of `c8Month`. -/
def c8Year : YearlyProjection :=
  ⟨2026, 0, 0, 0, 0, 0, 0, 0, [], [], [], 0⟩

/-- Concrete month whose first allocation (10) exceeds its end balance (0),
exposing the clamp in the start-of-year reconstruction. -/
def c8MonthClamp : MonthlyProjection :=
  ⟨"2026-01", 0, 0, 0, 0, [], 0, [], 0, [("cash", 10)], [("cash", 0)], 0, [], []⟩

/-- The error path of the source's compounding factors (lines 268, 280, 287
and 346): Python evaluates `base_float ** exp_float` to a complex number when
the base is negative and the exponent is not an integer, and
`Decimal(str(...))` then raises `InvalidOperation`.  A base of 0 or more
always yields a real float (overflow gives `inf`, whose string still
converts), and a negative base with an integral exponent stays real, so the
call raises exactly when the base is negative and the exponent non-integral. -/
def powRaises (base : ℚ) (exponentIntegral : Bool) : Bool :=
  decide (base < 0) && !exponentIntegral

/-- Whether the float exponent `month_index / 12` of the inflation factor is
an integer: exactly when 12 divides the month index. -/
def monthExponentIntegral (month_index : ℕ) : Bool :=
  decide (month_index % 12 = 0)

/-- Whether the expense step of `project_month` raises: some compounding
factor it executes — one per leaf of the category hierarchy (at the
`pyOr`-resolved rate), or one for the legacy flat amount — hits the
complex-pow error path. -/
def computeExpensesRaises (a : ProjectionAssumptions) (month_index : ℕ) : Bool :=
  if a.category_budgets.isEmpty then
    match a.monthly_expenses with
    | some _ =>
        powRaises (1 + a.expense_inflation_rate) (monthExponentIntegral month_index)
    | none => false
  else
    a.category_budgets.any (fun cb =>
      if cb.subcategory_budgets.isEmpty then
        powRaises (1 + pyOr cb.inflation_override a.expense_inflation_rate)
          (monthExponentIntegral month_index)
      else
        cb.subcategory_budgets.any (fun sb =>
          powRaises
            (1 + pyOr sb.inflation_override
                  (pyOr cb.inflation_override a.expense_inflation_rate))
            (monthExponentIntegral month_index)))

/-- Whether the roll-forward step raises: line 346 computes a growth factor
for every allocation-weight bucket with exponent `1/12`, which is never an
integer, so it raises exactly when some bucket return is below -100%. -/
def rollForwardRaises (a : ProjectionAssumptions) : Bool :=
  (weights a).any (fun p => powRaises (1 + ((returnsOf a).lookup p.1).getD 0) false)

/-- Whether the period-label step raises: `start_date + relativedelta(...)`
at line 356 overflows once the shifted date passes `datetime`'s maximum year
9999 (month indices are non-negative, so the lower bound cannot be hit). -/
def periodRaises (now : Date) (a : ProjectionAssumptions) (month_index : ℕ) : Bool :=
  decide (9999 < (addMonths (a.start_date.getD now) month_index).year)

/-- Whether `project_month` raises after a successful construction: one of
the three error paths above is hit (the factor computations and the date
arithmetic are the only fallible operations the month step executes — all
remaining arithmetic is exact `Decimal` addition, subtraction, multiplication
and a guarded division). -/
def project_month_raises (now : Date) (a : ProjectionAssumptions)
    (month_index : ℕ) : Bool :=
  computeExpensesRaises a month_index || rollForwardRaises a ||
    periodRaises now a month_index

/-- Concrete assumptions that pass construction (no allocation weights) but
whose expense inflation rate of -200% makes month 6 compute
`(-1.0) ** 0.5` — a complex number whose Decimal conversion raises. -/
def c5Assum : ProjectionAssumptions :=
  { monthly_expenses := some 100
    expense_inflation_rate := -2 }

/-! Infrastructure lemmas about association lists. -/

theorem lookup_map_keys (g : String → ℚ → ℚ) (l : Dict) (k : String) :
    List.lookup k (l.map (fun p => (p.1, g p.1 p.2))) = (List.lookup k l).map (g k) := by
  induction l with
  | nil => rfl
  | cons hd tl ih =>
      obtain ⟨k1, v1⟩ := hd
      by_cases h : k = k1
      · subst h
        simp [List.lookup]
      · have hb : (k == k1) = false := by simp [h]
        simp [List.lookup, hb, ih]

theorem keys_map_fst (F : String × ℚ → String × ℚ) (l : Dict)
    (h : ∀ p, (F p).1 = p.1) : (l.map F).map Prod.fst = l.map Prod.fst := by
  induction l with
  | nil => rfl
  | cons hd tl ih => simp [h, ih]

theorem lookup_eq_none_of_not_mem_keys (l : Dict) (k : String)
    (h : k ∉ l.map Prod.fst) : List.lookup k l = none := by
  induction l with
  | nil => rfl
  | cons hd tl ih =>
      obtain ⟨k1, v1⟩ := hd
      simp only [List.map_cons, List.mem_cons, not_or] at h
      have hb : (k == k1) = false := by simp [h.1]
      simp [List.lookup, hb, ih h.2]

theorem lookup_append_dict (l1 l2 : Dict) (k : String) :
    List.lookup k (l1 ++ l2) =
      match List.lookup k l1 with
      | some v => some v
      | none => List.lookup k l2 := by
  induction l1 with
  | nil => rfl
  | cons hd tl ih =>
      obtain ⟨k1, v1⟩ := hd
      by_cases h : k = k1
      · subst h
        simp [List.lookup]
      · have hb : (k == k1) = false := by simp [h]
        simp [List.lookup, hb, ih]

theorem sum_vals_scale (l : Dict) (s : ℚ) :
    ((l.map (fun p => (p.1, s * p.2))).map Prod.snd).sum = s * (l.map Prod.snd).sum := by
  induction l with
  | nil => simp
  | cons hd tl ih =>
      simp only [List.map_cons, List.sum_cons, ih]
      ring

theorem allocMap_eq (cash : String) (t r : ℚ) (l : Dict) :
    l.map (fun p => if p.1 == cash then (p.1, t + r * p.2) else (p.1, r * p.2))
      = l.map (fun p => (p.1, if p.1 == cash then t + r * p.2 else r * p.2)) := by
  apply List.map_congr_left
  intro p _
  split <;> rfl

theorem sum_vals_buffer_not_mem (l : Dict) (cash : String) (t r : ℚ)
    (h : cash ∉ l.map Prod.fst) :
    ((l.map (fun p => (p.1, if p.1 == cash then t + r * p.2 else r * p.2))).map Prod.snd).sum
      = r * (l.map Prod.snd).sum := by
  induction l with
  | nil => simp
  | cons hd tl ih =>
      obtain ⟨k1, v1⟩ := hd
      simp only [List.map_cons, List.mem_cons, not_or] at h
      have hne : (k1 == cash) = false := by
        simp [Ne.symm h.1]
      simp only [List.map_cons, List.sum_cons, hne, if_false, Bool.false_eq_true, ih h.2]
      ring

theorem sum_vals_buffer_mem (l : Dict) (cash : String) (t r : ℚ)
    (hnd : (l.map Prod.fst).Nodup) (h : cash ∈ l.map Prod.fst) :
    ((l.map (fun p => (p.1, if p.1 == cash then t + r * p.2 else r * p.2))).map Prod.snd).sum
      = t + r * (l.map Prod.snd).sum := by
  induction l with
  | nil => simp at h
  | cons hd tl ih =>
      obtain ⟨k1, v1⟩ := hd
      simp only [List.map_cons, List.nodup_cons] at hnd
      simp only [List.map_cons, List.mem_cons] at h
      by_cases hk : k1 = cash
      · subst hk
        have htl : k1 ∉ tl.map Prod.fst := hnd.1
        simp only [List.map_cons, List.sum_cons, beq_self_eq_true, if_true,
          sum_vals_buffer_not_mem tl k1 t r htl]
        ring
      · have hcash : cash ∈ tl.map Prod.fst := by
          rcases h with h1 | h2
          · exact absurd h1.symm hk
          · exact h2
        have hne : (k1 == cash) = false := by simp [hk]
        simp only [List.map_cons, List.sum_cons, hne, if_false, Bool.false_eq_true,
          ih hnd.2 hcash]
        ring

/-! Lemmas about the allocation and roll-forward steps. -/

theorem allocateBuckets_keys (a : ProjectionAssumptions) (prev : Dict) (e s : ℚ) :
    (allocateBuckets a prev e s).map Prod.fst = (weights a).map Prod.fst := by
  unfold allocateBuckets
  split
  · dsimp only
    split
    · exact keys_map_fst _ _ (fun p => by split <;> rfl)
    · exact keys_map_fst _ _ (fun _ => rfl)
  · exact keys_map_fst _ _ (fun _ => rfl)

theorem rollForward_keys (f : ℚ → ℚ → ℚ) (a : ProjectionAssumptions)
    (prev allocs : Dict) :
    (rollForward f a prev allocs).map Prod.fst = allocs.map Prod.fst :=
  keys_map_fst _ _ (fun _ => rfl)

theorem rollForward_lookup (f : ℚ → ℚ → ℚ) (a : ProjectionAssumptions)
    (prev allocs : Dict) (k : String) :
    List.lookup k (rollForward f a prev allocs) =
      (List.lookup k allocs).map (fun al =>
        (prev.lookup k).getD 0 * f (1 + ((returnsOf a).lookup k).getD 0) (1 / 12) + al) :=
  lookup_map_keys
    (fun b al => (prev.lookup b).getD 0 * f (1 + ((returnsOf a).lookup b).getD 0) (1 / 12) + al)
    allocs k

theorem lookup_ite_map (l : Dict) (cash : String) (t r : ℚ) (b : String) :
    List.lookup b (l.map (fun p => (p.1, if p.1 == cash then t + r * p.2 else r * p.2)))
      = (List.lookup b l).map (fun v => if b == cash then t + r * v else r * v) :=
  lookup_map_keys (fun x v => if x == cash then t + r * v else r * v) l b

theorem allocateBuckets_lookup_lt (a : ProjectionAssumptions) (prev : Dict) (e s : ℚ)
    (b : String) (wb : ℚ)
    (hmode : bufferModeActive a = true)
    (hlt : (prev.lookup (bufferName a)).getD 0 < e * (a.minimum_cash_buffer_months : ℚ))
    (hw : (weights a).lookup b = some wb) :
    (allocateBuckets a prev e s).lookup b =
      some (if b = bufferName a then
              min s (e * (a.minimum_cash_buffer_months : ℚ) - (prev.lookup (bufferName a)).getD 0)
                + (s - min s (e * (a.minimum_cash_buffer_months : ℚ)
                    - (prev.lookup (bufferName a)).getD 0)) * wb
            else
              (s - min s (e * (a.minimum_cash_buffer_months : ℚ)
                - (prev.lookup (bufferName a)).getD 0)) * wb) := by
  unfold allocateBuckets
  simp only [hmode, if_true, if_pos hlt]
  rw [allocMap_eq, lookup_ite_map, hw]
  by_cases hb : b = bufferName a <;> simp [hb]

theorem allocateBuckets_lookup_met (a : ProjectionAssumptions) (prev : Dict) (e s : ℚ)
    (b : String) (wb : ℚ)
    (hmode : bufferModeActive a = true)
    (hge : ¬ (prev.lookup (bufferName a)).getD 0 < e * (a.minimum_cash_buffer_months : ℚ))
    (hw : (weights a).lookup b = some wb) :
    (allocateBuckets a prev e s).lookup b = some (s * wb) := by
  unfold allocateBuckets
  simp only [hmode, if_true, if_neg hge]
  rw [lookup_map_keys (fun _ v => s * v) (weights a) b, hw]
  rfl

theorem allocateBuckets_lookup_plain (a : ProjectionAssumptions) (prev : Dict) (e s : ℚ)
    (b : String) (wb : ℚ)
    (hmode : bufferModeActive a = false)
    (hw : (weights a).lookup b = some wb) :
    (allocateBuckets a prev e s).lookup b = some (s * wb) := by
  unfold allocateBuckets
  simp only [hmode, Bool.false_eq_true, if_false]
  rw [lookup_map_keys (fun _ v => s * v) (weights a) b, hw]
  rfl

theorem prop_sum_bound (l : Dict) (s : ℚ) (hs : 0 ≤ s)
    (hsum : |(l.map Prod.snd).sum - 1| ≤ 1 / 1000) :
    |((l.map (fun p => (p.1, s * p.2))).map Prod.snd).sum - s| ≤ s * (1 / 1000) := by
  rw [sum_vals_scale]
  have h : s * (l.map Prod.snd).sum - s = s * ((l.map Prod.snd).sum - 1) := by ring
  rw [h, abs_mul, abs_of_nonneg hs]
  exact mul_le_mul_of_nonneg_left hsum hs

theorem allocateBuckets_sum_bound (a : ProjectionAssumptions) (prev : Dict) (e s : ℚ)
    (hs : 0 ≤ s)
    (hnd : ((weights a).map Prod.fst).Nodup)
    (hsum : |((weights a).map Prod.snd).sum - 1| ≤ 1 / 1000)
    (hbuf : bufferModeActive a = true →
      (prev.lookup (bufferName a)).getD 0 < e * (a.minimum_cash_buffer_months : ℚ) →
      bufferName a ∈ (weights a).map Prod.fst) :
    |((allocateBuckets a prev e s).map Prod.snd).sum - s| ≤ s * (1 / 1000) := by
  unfold allocateBuckets
  by_cases hmode : bufferModeActive a
  · simp only [hmode, if_true]
    by_cases hlt :
        (prev.lookup (bufferName a)).getD 0 < e * (a.minimum_cash_buffer_months : ℚ)
    · simp only [if_pos hlt]
      have hmem := hbuf hmode hlt
      set t := min s (e * (a.minimum_cash_buffer_months : ℚ)
        - (prev.lookup (bufferName a)).getD 0) with ht
      have h0t : 0 ≤ t := by
        apply le_min hs
        linarith
      have hts : t ≤ s := min_le_left _ _
      rw [allocMap_eq, sum_vals_buffer_mem _ _ _ _ hnd hmem]
      have hrw : t + (s - t) * (((weights a).map Prod.snd).sum) - s
          = (s - t) * (((weights a).map Prod.snd).sum - 1) := by ring
      rw [hrw, abs_mul, abs_of_nonneg (by linarith : (0 : ℚ) ≤ s - t)]
      calc (s - t) * |((weights a).map Prod.snd).sum - 1|
          ≤ (s - t) * (1 / 1000) := mul_le_mul_of_nonneg_left hsum (by linarith)
        _ ≤ s * (1 / 1000) := mul_le_mul_of_nonneg_right (by linarith) (by norm_num)
    · simp only [if_neg hlt]
      exact prop_sum_bound _ s hs hsum
  · simp only [hmode, Bool.false_eq_true, if_false]
    exact prop_sum_bound _ s hs hsum

/-! Field-access lemmas for `project_month` (all definitional). -/

theorem project_month_period_def (f : ℚ → ℚ → ℚ) (now : Date) (a : ProjectionAssumptions)
    (k : ℕ) (pb : Option Dict) :
    (project_month f now a k pb).period = periodLabel now a k := rfl

theorem project_month_net_def (f : ℚ → ℚ → ℚ) (now : Date) (a : ProjectionAssumptions)
    (k : ℕ) (pb : Option Dict) :
    (project_month f now a k pb).net_income = netIncome a := rfl

theorem project_month_expenses_def (f : ℚ → ℚ → ℚ) (now : Date) (a : ProjectionAssumptions)
    (k : ℕ) (pb : Option Dict) :
    (project_month f now a k pb).expenses = monthExpenses f a k := rfl

theorem project_month_breakdown_def (f : ℚ → ℚ → ℚ) (now : Date) (a : ProjectionAssumptions)
    (k : ℕ) (pb : Option Dict) :
    (project_month f now a k pb).expense_breakdown = (computeExpenses f a k).1 := rfl

theorem project_month_otc_def (f : ℚ → ℚ → ℚ) (now : Date) (a : ProjectionAssumptions)
    (k : ℕ) (pb : Option Dict) :
    (project_month f now a k pb).one_time_costs = oneTimeTotal a k := rfl

theorem project_month_savings_def (f : ℚ → ℚ → ℚ) (now : Date) (a : ProjectionAssumptions)
    (k : ℕ) (pb : Option Dict) :
    (project_month f now a k pb).savings = monthSavings f a k := rfl

theorem project_month_allocations_def (f : ℚ → ℚ → ℚ) (now : Date)
    (a : ProjectionAssumptions) (k : ℕ) (pb : Option Dict) :
    (project_month f now a k pb).bucket_allocations =
      allocateBuckets a (previousOrDefault a pb) (monthExpenses f a k) (monthSavings f a k) := rfl

theorem project_month_balances_def (f : ℚ → ℚ → ℚ) (now : Date)
    (a : ProjectionAssumptions) (k : ℕ) (pb : Option Dict) :
    (project_month f now a k pb).bucket_balances =
      rollForward f a (previousOrDefault a pb)
        (allocateBuckets a (previousOrDefault a pb) (monthExpenses f a k)
          (monthSavings f a k)) := rfl

theorem previousOrDefault_some (a : ProjectionAssumptions) (d : Dict) :
    previousOrDefault a (some d) = d := rfl

/-! Claim theorems. -/

/-- C4: for every month and every combination of income, expenses and
one-time costs, `savings = max(0, net_income - expenses - one_time_costs)`;
in particular savings is never negative, and a shortfall yields savings 0
(the embedded month step is a total function, so no error is raised). -/
theorem C4_savings_clamped_nonnegative (f : ℚ → ℚ → ℚ) (now : Date)
    (a : ProjectionAssumptions) (k : ℕ) (pb : Option Dict) :
    (project_month f now a k pb).savings =
      max 0 ((project_month f now a k pb).net_income -
        (project_month f now a k pb).expenses -
        (project_month f now a k pb).one_time_costs) ∧
    0 ≤ (project_month f now a k pb).savings :=
  ⟨rfl, le_max_left 0 _⟩

/-- C9: `project_month` is deterministic (identical inputs give identical
output); the period label is a pure function of `start_date` (with the
first-of-current-month fallback `now`) and the month index, namely
`start_date + month_index` calendar months formatted `YYYY-MM`; and the
label does not depend on the prior balances. -/
theorem C9_determinism_and_period_label (f : ℚ → ℚ → ℚ) (now : Date)
    (a : ProjectionAssumptions) (k : ℕ) (pb pb2 : Option Dict) :
    project_month f now a k pb = project_month f now a k pb ∧
    (project_month f now a k pb).period =
      formatPeriod (addMonths (a.start_date.getD now) k) ∧
    (project_month f now a k pb).period = (project_month f now a k pb2).period :=
  ⟨rfl, rfl, rfl⟩

/-- C2 (amended): whenever the validated weight-sum tolerance holds, the
bucket keys are distinct, and — in cash-buffer mode below target — the buffer
bucket is one of the allocation-weight keys, the allocation values returned by
`project_month` sum to the month's savings up to `savings * 0.001`; and the
buffer bucket's allocation is at least
`to_buffer = min(savings, target - prior_buffer)` whenever its weight is
non-negative. -/
theorem C2_allocation_sum_and_buffer_floor (f : ℚ → ℚ → ℚ) (now : Date)
    (a : ProjectionAssumptions) (k : ℕ) (prev : Dict)
    (hnd : ((weights a).map Prod.fst).Nodup)
    (hbuf : bufferModeActive a = true →
      (prev.lookup (bufferName a)).getD 0 <
        (project_month f now a k (some prev)).expenses *
          (a.minimum_cash_buffer_months : ℚ) →
      bufferName a ∈ (weights a).map Prod.fst)
    (hsum : |((weights a).map Prod.snd).sum - 1| ≤ 1 / 1000) :
    |(((project_month f now a k (some prev)).bucket_allocations).map Prod.snd).sum -
        (project_month f now a k (some prev)).savings| ≤
      (project_month f now a k (some prev)).savings * (1 / 1000) ∧
    (∀ wb, bufferModeActive a = true →
      (prev.lookup (bufferName a)).getD 0 <
        (project_month f now a k (some prev)).expenses *
          (a.minimum_cash_buffer_months : ℚ) →
      (weights a).lookup (bufferName a) = some wb → 0 ≤ wb →
      min (project_month f now a k (some prev)).savings
          ((project_month f now a k (some prev)).expenses *
              (a.minimum_cash_buffer_months : ℚ) - (prev.lookup (bufferName a)).getD 0)
        ≤ (((project_month f now a k (some prev)).bucket_allocations).lookup
            (bufferName a)).getD 0) := by
  simp only [project_month_expenses_def, project_month_savings_def,
    project_month_allocations_def, previousOrDefault_some] at hbuf ⊢
  constructor
  · exact allocateBuckets_sum_bound a prev (monthExpenses f a k) (monthSavings f a k)
      (le_max_left 0 _) hnd hsum hbuf
  · intro wb hmode hlt hw hwb
    rw [allocateBuckets_lookup_lt a prev _ _ _ wb hmode hlt hw]
    rw [if_pos rfl, Option.getD_some]
    have hts : min (monthSavings f a k)
        (monthExpenses f a k * (a.minimum_cash_buffer_months : ℚ) -
          (prev.lookup (bufferName a)).getD 0) ≤ monthSavings f a k := min_le_left _ _
    have h2 : 0 ≤ (monthSavings f a k -
        min (monthSavings f a k)
          (monthExpenses f a k * (a.minimum_cash_buffer_months : ℚ) -
            (prev.lookup (bufferName a)).getD 0)) * wb :=
      mul_nonneg (by linarith) hwb
    linarith

/-- C2 counterexample: with validated weights `{"invest": 1}` and buffer
bucket `"cash"` not among the weights, month 0 has savings 900 but the
allocations sum only to 300 (the 600 routed to the buffer is lost) and the
buffer bucket receives no allocation at all, so neither part of the claim as
stated holds for every validated assumptions object. -/
theorem C2_buffer_not_in_weights_counterexample :
    engineInit cAssum2 = Except.ok (normalizeAssumptions cAssum2) ∧
    (project_month (fun b _ => b) ⟨2026, 1⟩ cAssum2 0 (some [])).savings = 900 ∧
    (((project_month (fun b _ => b) ⟨2026, 1⟩ cAssum2 0
        (some [])).bucket_allocations).map Prod.snd).sum = 300 ∧
    ¬ (|(300 : ℚ) - 900| ≤ 900 * (1 / 1000)) ∧
    ((project_month (fun b _ => b) ⟨2026, 1⟩ cAssum2 0
        (some [])).bucket_allocations).lookup "cash" = none := by
  have hexp : monthExpenses (fun b _ => b) cAssum2 0 = 100 := by
    simp [monthExpenses, computeExpenses, inflFactor, cAssum2]
  have hsav : monthSavings (fun b _ => b) cAssum2 0 = 900 := by
    simp [monthSavings, netIncome, grossIncome, taxesOf, oneTimeTotal, oneTimeMatches,
      monthExpenses, computeExpenses, inflFactor, cAssum2]
    norm_num
  have halloc : (project_month (fun b _ => b) ⟨2026, 1⟩ cAssum2 0
      (some [])).bucket_allocations = [("invest", 300)] := by
    rw [project_month_allocations_def, previousOrDefault_some, hexp, hsav]
    norm_num [allocateBuckets, bufferModeActive, strOptTruthy, bufferName, weights,
      cAssum2, List.lookup, min_def]
    decide
  refine ⟨?_, ?_, ?_, ?_, ?_⟩
  · norm_num [engineInit, normalizeAssumptions, weights, returnsOf, cAssum2]
  · rw [project_month_savings_def, hsav]
  · rw [halloc]
    simp
  · rw [abs_le]
    intro h
    have h1 := h.1
    norm_num at h1
  · rw [halloc]
    simp [List.lookup]

/-- C2 witness: the amended theorem applied to concrete buffered assumptions
(salary 1000, expenses 100, weights cash/invest both one half). -/
theorem C2_allocation_sum_and_buffer_floor_witness :
    |(((project_month (fun b _ => b) ⟨2026, 1⟩ wAssum 0
          (some ([] : Dict))).bucket_allocations).map Prod.snd).sum -
        (project_month (fun b _ => b) ⟨2026, 1⟩ wAssum 0 (some ([] : Dict))).savings| ≤
      (project_month (fun b _ => b) ⟨2026, 1⟩ wAssum 0 (some ([] : Dict))).savings *
        (1 / 1000) :=
  (C2_allocation_sum_and_buffer_floor (fun b _ => b) ⟨2026, 1⟩ wAssum 0 []
    (by decide) (fun _ _ => by decide)
    (by norm_num [weights, wAssum])).1

/-- C3: with the buffer rule active (`enforce_cash_buffer` and a configured,
non-empty buffer bucket name), `target = expenses * minimum_cash_buffer_months`
for this month's post-inflation expenses; below target every weight bucket `b`
receives `remainder * weight[b]` plus, for the buffer bucket itself,
`to_buffer = min(savings, target - prior_buffer)`; at or above target every
bucket receives `savings * weight[b]`. -/
theorem C3_cash_buffer_allocation_formulas (f : ℚ → ℚ → ℚ) (now : Date)
    (a : ProjectionAssumptions) (k : ℕ) (prev : Dict) (b : String) (wb : ℚ)
    (henf : a.enforce_cash_buffer = true)
    (hname : strOptTruthy a.cash_buffer_bucket_name = true)
    (hw : (weights a).lookup b = some wb) :
    ((prev.lookup (bufferName a)).getD 0 <
        (project_month f now a k (some prev)).expenses *
          (a.minimum_cash_buffer_months : ℚ) →
      ((project_month f now a k (some prev)).bucket_allocations).lookup b =
        some (if b = bufferName a then
                min (project_month f now a k (some prev)).savings
                    ((project_month f now a k (some prev)).expenses *
                        (a.minimum_cash_buffer_months : ℚ) -
                      (prev.lookup (bufferName a)).getD 0)
                  + ((project_month f now a k (some prev)).savings -
                      min (project_month f now a k (some prev)).savings
                        ((project_month f now a k (some prev)).expenses *
                            (a.minimum_cash_buffer_months : ℚ) -
                          (prev.lookup (bufferName a)).getD 0)) * wb
              else
                ((project_month f now a k (some prev)).savings -
                    min (project_month f now a k (some prev)).savings
                      ((project_month f now a k (some prev)).expenses *
                          (a.minimum_cash_buffer_months : ℚ) -
                        (prev.lookup (bufferName a)).getD 0)) * wb)) ∧
    (¬ (prev.lookup (bufferName a)).getD 0 <
        (project_month f now a k (some prev)).expenses *
          (a.minimum_cash_buffer_months : ℚ) →
      ((project_month f now a k (some prev)).bucket_allocations).lookup b =
        some ((project_month f now a k (some prev)).savings * wb)) := by
  have hmode : bufferModeActive a = true := by
    simp [bufferModeActive, henf, hname]
  simp only [project_month_expenses_def, project_month_savings_def,
    project_month_allocations_def, previousOrDefault_some]
  constructor
  · intro hlt
    exact allocateBuckets_lookup_lt a prev _ _ b wb hmode hlt hw
  · intro hge
    exact allocateBuckets_lookup_met a prev _ _ b wb hmode hge hw

/-- C3 witness: the formulas evaluated on the concrete buffered assumptions
at month 0 with empty prior balances (below target). -/
theorem C3_cash_buffer_allocation_formulas_witness :
    (((project_month (fun b _ => b) ⟨2026, 1⟩ wAssum 0
          (some ([] : Dict))).bucket_allocations).lookup "cash" =
        some (if "cash" = bufferName wAssum then
                min (project_month (fun b _ => b) ⟨2026, 1⟩ wAssum 0
                      (some ([] : Dict))).savings
                    ((project_month (fun b _ => b) ⟨2026, 1⟩ wAssum 0
                          (some ([] : Dict))).expenses *
                        (wAssum.minimum_cash_buffer_months : ℚ) -
                      (([] : Dict).lookup (bufferName wAssum)).getD 0)
                  + ((project_month (fun b _ => b) ⟨2026, 1⟩ wAssum 0
                        (some ([] : Dict))).savings -
                      min (project_month (fun b _ => b) ⟨2026, 1⟩ wAssum 0
                            (some ([] : Dict))).savings
                        ((project_month (fun b _ => b) ⟨2026, 1⟩ wAssum 0
                              (some ([] : Dict))).expenses *
                            (wAssum.minimum_cash_buffer_months : ℚ) -
                          (([] : Dict).lookup (bufferName wAssum)).getD 0)) * (1 / 2)
              else
                ((project_month (fun b _ => b) ⟨2026, 1⟩ wAssum 0
                      (some ([] : Dict))).savings -
                    min (project_month (fun b _ => b) ⟨2026, 1⟩ wAssum 0
                          (some ([] : Dict))).savings
                      ((project_month (fun b _ => b) ⟨2026, 1⟩ wAssum 0
                            (some ([] : Dict))).expenses *
                          (wAssum.minimum_cash_buffer_months : ℚ) -
                        (([] : Dict).lookup (bufferName wAssum)).getD 0)) * (1 / 2))) :=
  (C3_cash_buffer_allocation_formulas (fun b _ => b) ⟨2026, 1⟩ wAssum 0 [] "cash" (1 / 2)
    (by decide) (by decide) (by simp [weights, wAssum, List.lookup])).1
    (by
      rw [project_month_expenses_def]
      norm_num [monthExpenses, computeExpenses, inflFactor, wAssum, bufferName,
        List.lookup])

/-- C5 (amended): construction fails (with the invalid-assumptions error)
exactly when `allocation_weights` is non-empty and its values sum farther
than the absolute tolerance 0.001 from 1; in every other case construction
returns the normalised assumptions unchanged, and no other field is validated
at construction.  The month step can, however, still fail after a successful
construction — `C5_no_failure_counterexample` exhibits a validated input
whose compounding factor hits the complex-pow error path modelled by
`project_month_raises`. -/
theorem C5_weight_validation_iff (a : ProjectionAssumptions) :
    ((∃ e, engineInit a = Except.error e) ↔
      (weights a ≠ [] ∧ 1 / 1000 < |((weights a).map Prod.snd).sum - 1|)) ∧
    (engineInit a = Except.ok (normalizeAssumptions a) ↔
      (weights a = [] ∨ |((weights a).map Prod.snd).sum - 1| ≤ 1 / 1000)) := by
  have hw : weights (normalizeAssumptions a) = weights a := rfl
  by_cases hemp : weights a = []
  · have hb : (weights (normalizeAssumptions a)).isEmpty = true := by
      rw [hw, hemp]
      rfl
    have h1 : engineInit a = Except.ok (normalizeAssumptions a) := by
      simp only [engineInit]
      rw [if_pos hb]
    constructor
    · constructor
      · rintro ⟨e, he⟩
        rw [h1] at he
        exact Except.noConfusion he
      · rintro ⟨hne, _⟩
        exact absurd hemp hne
    · exact ⟨fun _ => Or.inl hemp, fun _ => h1⟩
  · have hb : (weights (normalizeAssumptions a)).isEmpty = false := by
      rw [hw]
      cases h2 : (weights a).isEmpty
      · rfl
      · exact absurd (List.isEmpty_iff.mp h2) hemp
    by_cases htol : 1 / 1000 < |((weights a).map Prod.snd).sum - 1|
    · have h1 : engineInit a = Except.error "Allocation weights must sum to 1.0" := by
        simp only [engineInit]
        rw [hb]
        simp only [Bool.false_eq_true, if_false]
        rw [hw, if_pos htol]
      constructor
      · exact ⟨fun _ => ⟨hemp, htol⟩, fun _ => ⟨_, h1⟩⟩
      · constructor
        · intro h2
          rw [h1] at h2
          exact Except.noConfusion h2
        · intro h2
          rcases h2 with h2 | h2
          · exact absurd h2 hemp
          · exact absurd htol (not_lt.mpr h2)
    · have h1 : engineInit a = Except.ok (normalizeAssumptions a) := by
        simp only [engineInit]
        rw [hb]
        simp only [Bool.false_eq_true, if_false]
        rw [hw, if_neg htol]
      constructor
      · constructor
        · rintro ⟨e, he⟩
          rw [h1] at he
          exact Except.noConfusion he
        · rintro ⟨_, h2⟩
          exact absurd h2 htol
      · exact ⟨fun _ => Or.inr (not_lt.mp htol), fun _ => h1⟩

/-- C5 witness: weights summing to 0.8 are rejected and weights summing to
exactly 1 construct successfully (the two spec examples). -/
theorem C5_weight_validation_iff_witness :
    (∃ e, engineInit wBad = Except.error e) ∧
    engineInit wGood = Except.ok (normalizeAssumptions wGood) := by
  constructor
  · apply (C5_weight_validation_iff wBad).1.mpr
    constructor
    · simp [weights, wBad]
    · have h : ((weights wBad).map Prod.snd).sum - 1 = -(1/5 : ℚ) := by
        simp [weights, wBad]
        norm_num
      rw [h, abs_neg, abs_of_nonneg (by norm_num : (0:ℚ) ≤ 1/5)]
      norm_num
  · apply (C5_weight_validation_iff wGood).2.mpr
    apply Or.inr
    have h : ((weights wGood).map Prod.snd).sum - 1 = (0 : ℚ) := by
      simp [weights, wGood]
      norm_num
    rw [h, abs_zero]
    norm_num

/-- C5 counterexample: the assumptions with expense inflation -200% and no
allocation weights pass construction, yet `project_month` at month index 6
raises — line 287 computes `Decimal(str((-1.0) ** 0.5))`, and the complex
result makes the conversion raise — so failure CAN occur during
`project_month` after construction succeeds, contrary to the claim's
no-failure clause. -/
theorem C5_no_failure_counterexample :
    engineInit c5Assum = Except.ok (normalizeAssumptions c5Assum) ∧
    project_month_raises ⟨2026, 1⟩ c5Assum 6 = true := by
  constructor
  · rfl
  · norm_num [project_month_raises, computeExpensesRaises, rollForwardRaises,
      periodRaises, powRaises, monthExponentIntegral, weights, returnsOf,
      addMonths, c5Assum]

/-- C6: a bucket receiving allocation `al` ends the month at
`prior * f(1 + annual_return, 1/12) + al` — the compounding factor (one
application of the float-pow round trip `f`) multiplies the pre-contribution
balance exactly, and the contribution is added un-grown; a bucket absent from
`bucket_returns` is grown at annual return 0, so with the float fact
`f 1 (1/12) = 1` its balance is exactly `prior + al`. -/
theorem C6_grow_then_contribute (f : ℚ → ℚ → ℚ) (now : Date)
    (a : ProjectionAssumptions) (k : ℕ) (prev : Dict) (b : String) (al : ℚ)
    (hal : ((project_month f now a k (some prev)).bucket_allocations).lookup b = some al) :
    ((project_month f now a k (some prev)).bucket_balances).lookup b =
      some ((prev.lookup b).getD 0 *
          f (1 + ((returnsOf a).lookup b).getD 0) (1 / 12) + al) ∧
    ((returnsOf a).lookup b = none → f 1 (1 / 12) = 1 →
      ((project_month f now a k (some prev)).bucket_balances).lookup b =
        some ((prev.lookup b).getD 0 + al)) := by
  have h1 : ((project_month f now a k (some prev)).bucket_balances).lookup b =
      some ((prev.lookup b).getD 0 *
        f (1 + ((returnsOf a).lookup b).getD 0) (1 / 12) + al) := by
    rw [project_month_balances_def, previousOrDefault_some, rollForward_lookup]
    rw [project_month_allocations_def, previousOrDefault_some] at hal
    rw [hal]
    rfl
  refine ⟨h1, fun hnone hf => ?_⟩
  rw [h1, hnone]
  simp only [Option.getD_none, add_zero, hf, mul_one]

/-- C6 witness: one invest bucket with 20 percent annual return, prior balance
100 and allocation 1000; its end balance is the grown prior plus 1000. -/
theorem C6_grow_then_contribute_witness :
    ((project_month (fun b _ => b) ⟨2026, 1⟩ wAssum6 0
        (some [("invest", 100)])).bucket_balances).lookup "invest" =
      some ((([("invest", (100:ℚ))] : Dict).lookup "invest").getD 0 *
          ((fun (b : ℚ) (_ : ℚ) => b) (1 + ((returnsOf wAssum6).lookup "invest").getD 0)
            (1 / 12)) + 1000) :=
  (C6_grow_then_contribute (fun b _ => b) ⟨2026, 1⟩ wAssum6 0 [("invest", 100)]
    "invest" 1000
    (by
      rw [project_month_allocations_def, previousOrDefault_some]
      norm_num [allocateBuckets, bufferModeActive, wAssum6, weights, List.lookup,
        monthSavings, netIncome, grossIncome, taxesOf, monthExpenses, computeExpenses,
        oneTimeTotal, oneTimeMatches])).1

/-- C10: the key sets of the returned allocation and balance maps are exactly
the allocation-weight keys; a prior balance supplied under any other key is
dropped from the carried state; and with empty weights both maps are empty
every month (so in particular the buffer priority amount is never credited). -/
theorem C10_bucket_key_invariants (f : ℚ → ℚ → ℚ) (now : Date)
    (a : ProjectionAssumptions) (k : ℕ) (pb : Option Dict) :
    ((project_month f now a k pb).bucket_allocations).map Prod.fst
        = (weights a).map Prod.fst ∧
    ((project_month f now a k pb).bucket_balances).map Prod.fst
        = (weights a).map Prod.fst ∧
    (∀ x, x ∉ (weights a).map Prod.fst →
      ((project_month f now a k pb).bucket_allocations).lookup x = none ∧
      ((project_month f now a k pb).bucket_balances).lookup x = none) ∧
    (weights a = [] →
      (project_month f now a k pb).bucket_allocations = [] ∧
      (project_month f now a k pb).bucket_balances = []) := by
  have h1 : ((project_month f now a k pb).bucket_allocations).map Prod.fst
      = (weights a).map Prod.fst := by
    rw [project_month_allocations_def]
    exact allocateBuckets_keys a _ _ _
  have h2 : ((project_month f now a k pb).bucket_balances).map Prod.fst
      = (weights a).map Prod.fst := by
    rw [project_month_balances_def, rollForward_keys]
    exact allocateBuckets_keys a _ _ _
  refine ⟨h1, h2, fun x hx => ⟨?_, ?_⟩, fun hw => ⟨?_, ?_⟩⟩
  · exact lookup_eq_none_of_not_mem_keys _ _ (by rw [h1]; exact hx)
  · exact lookup_eq_none_of_not_mem_keys _ _ (by rw [h2]; exact hx)
  · have h3 := h1
    rw [hw] at h3
    simp only [List.map_nil] at h3
    exact List.map_eq_nil_iff.mp h3
  · have h3 := h2
    rw [hw] at h3
    simp only [List.map_nil] at h3
    exact List.map_eq_nil_iff.mp h3

/-- C10 witness: a prior balance under the unknown key "gone" is dropped from
the returned balances of the buffered single-bucket assumptions. -/
theorem C10_bucket_key_invariants_witness :
    ((project_month (fun b _ => b) ⟨2026, 1⟩ cAssum2 0
        (some [("gone", 55)])).bucket_allocations).map Prod.fst
      = (weights cAssum2).map Prod.fst ∧
    ((project_month (fun b _ => b) ⟨2026, 1⟩ cAssum2 0
        (some [("gone", 55)])).bucket_balances).lookup "gone" = none :=
  ⟨(C10_bucket_key_invariants (fun b _ => b) ⟨2026, 1⟩ cAssum2 0 (some [("gone", 55)])).1,
   ((C10_bucket_key_invariants (fun b _ => b) ⟨2026, 1⟩ cAssum2 0
      (some [("gone", 55)])).2.2.1 "gone" (by decide)).2⟩

/-! Lemmas relating the Python `or` override chain to the explicit tier
lookups, and the expense fold to a per-category flattening. -/

theorem pyOr_eq_twoTier (g : ℚ) (ov : Option ℚ) : pyOr ov g = twoTierRate g ov := by
  cases ov with
  | none => rfl
  | some r =>
      by_cases h : r = 0
      · simp [pyOr, twoTierRate, specifiedNonzero, h]
      · simp [pyOr, twoTierRate, specifiedNonzero, h]

theorem pyOr_pyOr_eq_threeTier (g : ℚ) (catOv subOv : Option ℚ) :
    pyOr subOv (pyOr catOv g) = threeTierRate g catOv subOv := by
  rw [pyOr_eq_twoTier g catOv]
  cases subOv with
  | none => simp [pyOr, threeTierRate, specifiedNonzero]
  | some r =>
      by_cases h : r = 0
      · simp [pyOr, threeTierRate, specifiedNonzero, h]
      · simp [pyOr, threeTierRate, specifiedNonzero, h]

theorem categoryEntries_eq_spec (f : ℚ → ℚ → ℚ) (g : ℚ) (k : ℕ) (cb : CategoryBudget) :
    (categoryEntries f g k cb).1 = specEntriesFor f g k cb := by
  obtain ⟨cid, amt, ov, subs⟩ := cb
  cases subs with
  | nil => simp [categoryEntries, specEntriesFor, pyOr_eq_twoTier]
  | cons sb tl =>
      simp only [categoryEntries, specEntriesFor]
      have hmap : (sb :: tl).map (subcategoryEntry f (pyOr ov g) k cid)
          = (sb :: tl).map (fun sb2 =>
              (cid ++ ":" ++ sb2.subcategory_id,
               sb2.monthly_amount *
                 inflFactor f (threeTierRate g ov sb2.inflation_override) k)) := by
        apply List.map_congr_left
        intro sb2 _
        unfold subcategoryEntry
        rw [pyOr_pyOr_eq_threeTier]
      rw [hmap]

theorem foldl_append_fst (F : CategoryBudget → Dict × ℚ) (l : List CategoryBudget)
    (d : Dict) (t : ℚ) :
    (l.foldl (fun acc cb => ((acc.1 ++ (F cb).1, acc.2 + (F cb).2) : Dict × ℚ)) (d, t)).1
      = d ++ (l.map (fun cb => (F cb).1)).flatten := by
  induction l generalizing d t with
  | nil => simp
  | cons cb tl ih => simp [ih, List.append_assoc]

theorem computeExpenses_breakdown (f : ℚ → ℚ → ℚ) (a : ProjectionAssumptions) (k : ℕ) :
    (computeExpenses f a k).1 =
      (a.category_budgets.map (fun cb =>
        (categoryEntries f a.expense_inflation_rate k cb).1)).flatten := by
  unfold computeExpenses
  by_cases hemp : a.category_budgets.isEmpty
  · rw [if_pos hemp, List.isEmpty_iff.mp hemp]
    cases a.monthly_expenses <;> rfl
  · rw [if_neg hemp,
      foldl_append_fst (categoryEntries f a.expense_inflation_rate k) a.category_budgets [] 0,
      List.nil_append]

/-- C1 (amended): the expense breakdown returned by `project_month` is, per
category, exactly the leaves inflated at the tier-resolved effective rate —
subcategory override, else category override, else global — where an override
counts as specified only when it is non-zero (an `inflation_override` of 0 is
treated by the code as unspecified and falls through to the next tier). -/
theorem C1_three_tier_rate_resolution (f : ℚ → ℚ → ℚ) (now : Date)
    (a : ProjectionAssumptions) (k : ℕ) (pb : Option Dict) :
    (project_month f now a k pb).expense_breakdown =
      (a.category_budgets.map (specEntriesFor f a.expense_inflation_rate k)).flatten := by
  rw [project_month_breakdown_def, computeExpenses_breakdown]
  congr 1
  apply List.map_congr_left
  intro cb _
  exact categoryEntries_eq_spec f a.expense_inflation_rate k cb

/-- C1 counterexample: a category with the specified override 0 against a 3
percent global rate is inflated at the global rate (expenses 103 at month 12
under the identity float-pow), not at its override (which would give 100) —
so the claim does not hold for an override of 0. -/
theorem C1_zero_override_counterexample :
    (project_month (fun b _ => b) ⟨2026, 1⟩ c1Assum 12 none).expenses
        = 100 * (1 + 3/100) ∧
    (100 * (1 + 3/100) : ℚ) ≠ 100 * (1 + 0) := by
  constructor
  · rw [project_month_expenses_def]
    simp [monthExpenses, computeExpenses, categoryEntries, pyOr, inflFactor, c1Assum]
  · norm_num

/-! Lemmas for the period refinement: the month step reads its prior-balance
map only through zero-defaulted lookups. -/

theorem allocateBuckets_ext (a : ProjectionAssumptions) (d1 d2 : Dict) (e s : ℚ)
    (h : ∀ key, (d1.lookup key).getD 0 = (d2.lookup key).getD 0) :
    allocateBuckets a d1 e s = allocateBuckets a d2 e s := by
  simp only [allocateBuckets]
  rw [h (bufferName a)]

theorem rollForward_ext (f : ℚ → ℚ → ℚ) (a : ProjectionAssumptions)
    (d1 d2 allocs : Dict)
    (h : ∀ key, (d1.lookup key).getD 0 = (d2.lookup key).getD 0) :
    rollForward f a d1 allocs = rollForward f a d2 allocs := by
  simp only [rollForward]
  apply List.map_congr_left
  intro p _
  rw [h p.1]

theorem project_month_ext (f : ℚ → ℚ → ℚ) (now : Date) (a : ProjectionAssumptions)
    (m : ℕ) (d1 d2 : Dict)
    (h : ∀ key, (d1.lookup key).getD 0 = (d2.lookup key).getD 0) :
    project_month f now a m (some d1) = project_month f now a m (some d2) := by
  have hA : allocateBuckets a d1 (computeExpenses f a m).2 (monthSavings f a m)
      = allocateBuckets a d2 (computeExpenses f a m).2 (monthSavings f a m) :=
    allocateBuckets_ext a d1 d2 _ _ h
  have hR : rollForward f a d1
        (allocateBuckets a d2 (computeExpenses f a m).2 (monthSavings f a m))
      = rollForward f a d2
        (allocateBuckets a d2 (computeExpenses f a m).2 (monthSavings f a m)) :=
    rollForward_ext f a d1 d2 _ h
  simp only [project_month, previousOrDefault_some]
  rw [hA, hR]

theorem lookup_zeros_getD (l : Dict) (key : String) :
    ((l.map (fun p => (p.1, (0 : ℚ)))).lookup key).getD 0 = 0 := by
  rw [lookup_map_keys (fun _ _ => (0 : ℚ)) l key]
  cases List.lookup key l <;> rfl

theorem specInitialBalances_lookup (a : ProjectionAssumptions) (init : Option Dict)
    (key : String) :
    ((specInitialBalances a init).lookup key).getD 0 =
      ((((match init with
          | none => zeroBalances a
          | some d => if d.isEmpty then zeroBalances a else d) : Dict)).lookup key).getD 0 := by
  cases init with
  | none =>
      have hf : ((weights a).filter (fun p => ((([] : Dict).lookup p.1).isNone)))
          = weights a :=
        List.filter_eq_self.mpr (fun p _ => rfl)
      simp only [specInitialBalances, Option.getD_none, hf]
      rw [List.nil_append]
      rfl
  | some d =>
      cases d with
      | nil =>
          have hf : ((weights a).filter (fun p => ((([] : Dict).lookup p.1).isNone)))
              = weights a :=
            List.filter_eq_self.mpr (fun p _ => rfl)
          simp only [specInitialBalances, Option.getD_some, hf]
          rw [List.nil_append]
          rfl
      | cons hd tl =>
          simp only [specInitialBalances, Option.getD_some, List.isEmpty_cons,
            Bool.false_eq_true, if_false]
          rw [lookup_append_dict]
          cases hcase : List.lookup key (hd :: tl) with
          | some v => simp [hcase]
          | none =>
              simp only [hcase]
              rw [lookup_map_keys (fun _ _ => (0 : ℚ))]
              cases List.lookup key
                  (List.filter (fun p => (((hd :: tl : Dict)).lookup p.1).isNone)
                    (weights a)) <;> rfl

theorem runMonths_eq_specSequence (f : ℚ → ℚ → ℚ) (now : Date)
    (a : ProjectionAssumptions) (n : ℕ) :
    ∀ (start : ℕ) (b1 b2 : Dict),
      (∀ key, (b1.lookup key).getD 0 = (b2.lookup key).getD 0) →
      runMonths f now a start n b1 = specSequence f now a b2 start n := by
  induction n with
  | zero => intro start b1 b2 _; rfl
  | succ n ih =>
      intro start b1 b2 h
      have hm : project_month f now a start (some b1)
          = project_month f now a start (some b2) :=
        project_month_ext f now a start b1 b2 h
      simp only [runMonths, specSequence]
      rw [hm]
      exact congrArg _ (ih (start + 1) _ _ (fun _ => rfl))

/-- C7: `project_period N initial_balances` is exactly the sequential
recurrence of the spec — month 0 runs on the supplied initial balances with
every allocation-weight bucket not explicitly supplied defaulting to 0, and
month k+1 runs on month k's output balances — one pass, no look-ahead, no
early termination. -/
theorem C7_project_period_refines_sequential_spec (f : ℚ → ℚ → ℚ) (now : Date)
    (a : ProjectionAssumptions) (months : ℕ) (initial_balances : Option Dict) :
    project_period f now a months initial_balances =
      specSequence f now a (specInitialBalances a initial_balances) 0 months := by
  simp only [project_period]
  exact runMonths_eq_specSequence f now a months 0 _ _
    (fun key => (specInitialBalances_lookup a initial_balances key).symm)

/-- C8 (amended): every yearly aggregate groups the months whose period label
embeds its year; the six flow fields are the sums of the monthly fields;
`avg_savings_rate` is the plain arithmetic mean of the monthly savings rates
(not income-weighted); end-of-year balances are the last month's balances; and
each bucket's start-of-year balance is reconstructed as
`max(0, first_month_end_balance - first_month_allocation)` — clamped at zero
by the code, and 0 for every bucket when the first month's allocations map is
empty. -/
theorem C8_yearly_aggregation (ps : List MonthlyProjection) (yp : YearlyProjection)
    (hyp : yp ∈ aggregate_to_yearly ps) :
    yp.gross_income = ((monthsOfYear ps yp.year).map MonthlyProjection.gross_income).sum ∧
    yp.taxes = ((monthsOfYear ps yp.year).map MonthlyProjection.taxes).sum ∧
    yp.net_income = ((monthsOfYear ps yp.year).map MonthlyProjection.net_income).sum ∧
    yp.expenses = ((monthsOfYear ps yp.year).map MonthlyProjection.expenses).sum ∧
    yp.one_time_costs =
      ((monthsOfYear ps yp.year).map MonthlyProjection.one_time_costs).sum ∧
    yp.savings = ((monthsOfYear ps yp.year).map MonthlyProjection.savings).sum ∧
    yp.avg_savings_rate =
      ((monthsOfYear ps yp.year).map MonthlyProjection.savings_rate).sum /
        ((monthsOfYear ps yp.year).length : ℚ) ∧
    yp.bucket_balances_end =
      ((monthsOfYear ps yp.year).getLastD mdefault).bucket_balances ∧
    yp.bucket_balances_start = yp.bucket_balances_end.map (fun p =>
      if ((monthsOfYear ps yp.year).headD mdefault).bucket_allocations.isEmpty then
        (p.1, (0 : ℚ))
      else
        (p.1, max 0
          ((((monthsOfYear ps yp.year).headD mdefault).bucket_balances.lookup p.1).getD 0 -
            (((monthsOfYear ps yp.year).headD
                mdefault).bucket_allocations.lookup p.1).getD 0))) := by
  unfold aggregate_to_yearly at hyp
  by_cases hemp : ps.isEmpty
  · rw [if_pos hemp] at hyp
    exact absurd hyp (List.not_mem_nil yp)
  · rw [if_neg hemp] at hyp
    rw [List.mem_map] at hyp
    obtain ⟨y, _, rfl⟩ := hyp
    refine ⟨rfl, rfl, rfl, rfl, rfl, rfl, ?_, rfl, rfl⟩
    by_cases hms : (monthsOfYear ps y).isEmpty
    · have he : monthsOfYear ps y = [] := List.isEmpty_iff.mp hms
      simp [aggregateYear, he]
    · simp [aggregateYear, hms]

/-- C8 counterexample: a single month whose bucket allocation (10) exceeds its
end balance (0) is aggregated with a start-of-year balance of 0, not the
unclamped `first_balance - first_allocation = 0 - 10` the claim prescribes. -/
theorem C8_start_balance_clamp_counterexample :
    (aggregate_to_yearly [c8MonthClamp]).map YearlyProjection.bucket_balances_start
      = [[("cash", 0)]] ∧
    ((0 : ℚ) ≠ 0 - 10) := by
  constructor
  · have hy : periodYear "2026-01" = 2026 := by decide
    simp [aggregate_to_yearly, distinctYears, sortYears, insertSorted, monthsOfYear,
      aggregateYear, c8MonthClamp, hy, mdefault, List.lookup, max_def]
  · norm_num

/-- C8 witness: the aggregation formulas applied to a concrete one-month
series (the all-zero month of 2026-01). -/
theorem C8_yearly_aggregation_witness :
    c8Year ∈ aggregate_to_yearly [c8Month] ∧
    c8Year.savings = ((monthsOfYear [c8Month] c8Year.year).map
      MonthlyProjection.savings).sum := by
  have hy : periodYear "2026-01" = 2026 := by decide
  have hagg : aggregate_to_yearly [c8Month] = [c8Year] := by
    simp [aggregate_to_yearly, distinctYears, sortYears, insertSorted, monthsOfYear,
      aggregateYear, sumContributions, c8Month, c8Year, hy, mdefault]
  have hmem : c8Year ∈ aggregate_to_yearly [c8Month] := by
    rw [hagg]
    exact List.mem_singleton.mpr rfl
  exact ⟨hmem, (C8_yearly_aggregation [c8Month] c8Year hmem).2.2.2.2.2.1⟩

end Ledgera
